import Mathlib

/-!
Verification development for the verve health-log service: a serverless
HTTP handler (src/lambda/pkg/handlers/handlers.go) over a thin DynamoDB
persistence adapter (src/lambda/pkg/stores/stores.go) storing HealthLog
records keyed by the pair of userId (partition key) and timestamp
(sort key).

The embedding models the DynamoDB table as a list of items; PutItem
overwrites by key, GetItem is a point lookup, Query returns the
partition's items ordered by the sort key (descending here, since the
store always sets ScanIndexForward to false), a FilterExpression is
applied after the key-condition query, and DeleteItem removes by key.
Remote transport failures are outside the pure model, so adapter calls
other than the point lookup (whose miss is an error value with the
message string used by the Go code) are total functions on the table
state.  The JSON body of a POST request is represented by the outcome
of unmarshalling it into the CreateHealthLogRequest shape, and the
server clock is an explicit parameter standing for
time.Now().UTC().Format(time.RFC3339).
-/

/-- The HealthLog entity of src/lambda/pkg/models/health_log.go. -/
structure HealthLog where
  userId : String
  timestamp : String
  type : String
  value : String
deriving DecidableEq

/-- A DynamoDB table holding HealthLog items. -/
abbrev Table := List HealthLog

/-- Whether an item carries the given composite key. -/
def keyMatches (u ts : String) (l : HealthLog) : Bool :=
  l.userId == u && l.timestamp == ts

/-- DynamoDB PutItem: unconditional overwrite by composite key. -/
def putItem (t : Table) (l : HealthLog) : Table :=
  l :: t.filter (fun x => !(keyMatches l.userId l.timestamp x))

/-- DynamoDB GetItem: point lookup by composite key. -/
def getItem (t : Table) (u ts : String) : Option HealthLog :=
  t.find? (keyMatches u ts)

/-- DynamoDB DeleteItem: remove by composite key; no existence check. -/
def deleteItem (t : Table) (u ts : String) : Table :=
  t.filter (fun x => !(keyMatches u ts x))

/-- Sort-key comparison used by Query with ScanIndexForward false:
timestamp descending. -/
def tsDescLe (a b : HealthLog) : Bool :=
  decide (b.timestamp ≤ a.timestamp)

/-- DynamoDB Query on the partition key, ScanIndexForward false:
all items of the partition, ordered by sort key descending. -/
def dynQuery (t : Table) (u : String) : List HealthLog :=
  (t.filter (fun l => l.userId == u)).mergeSort tsDescLe

/-- DynamoDB Query with a FilterExpression on the type attribute: the
filter is applied after the key-condition query, preserving order. -/
def dynQueryFiltered (t : Table) (u ty : String) : List HealthLog :=
  (dynQuery t u).filter (fun l => l.type == ty)

/-- stores.CreateHealthLog: PutItem of the marshalled log. -/
def CreateHealthLog (t : Table) (log : HealthLog) : Table :=
  putItem t log

/-- stores.GetHealthLog: GetItem; a nil result yields the error
message "log not found". -/
def GetHealthLog (t : Table) (userID timestamp : String) :
    Except String HealthLog :=
  match getItem t userID timestamp with
  | some log => Except.ok log
  | none => Except.error "log not found"

/-- stores.GetHealthLogsByUserID: Query on the partition key with
ScanIndexForward false. -/
def GetHealthLogsByUserID (t : Table) (userID : String) : List HealthLog :=
  dynQuery t userID

/-- stores.GetHealthLogsByUserIDAndType: the same Query with a
FilterExpression on the type attribute. -/
def GetHealthLogsByUserIDAndType (t : Table) (userID logType : String) :
    List HealthLog :=
  dynQueryFiltered t userID logType

/-- stores.UpdateHealthLog: PutItem of the marshalled log, identical in
effect to CreateHealthLog. -/
def UpdateHealthLog (t : Table) (log : HealthLog) : Table :=
  putItem t log

/-- stores.DeleteHealthLog: DeleteItem by composite key. -/
def DeleteHealthLog (t : Table) (userID timestamp : String) : Table :=
  deleteItem t userID timestamp

/-- handlers.CreateHealthLogRequest: the request-body shape for POST.
It has no timestamp field; a timestamp key in the JSON body is dropped
by unmarshalling. -/
structure CreateHealthLogRequest where
  userId : String
  type : String
  value : String
deriving DecidableEq

/-- Data payload of a success response: a single log or a sequence. -/
inductive RespData where
  | log (l : HealthLog)
  | logs (ls : List HealthLog)
deriving DecidableEq

/-- Response body: empty (OPTIONS preflight), the ErrorResponse
envelope, or the SuccessResponse envelope. -/
inductive RespBody where
  | empty
  | err (error message : String)
  | success (data : Option RespData) (message : String)
deriving DecidableEq

/-- events.APIGatewayProxyResponse as built by the handlers. -/
structure APIResponse where
  statusCode : Nat
  headers : List (String × String)
  body : RespBody
deriving DecidableEq

/-- events.APIGatewayProxyRequest as consumed by the handlers; the raw
JSON body is represented by its unmarshalling outcome. -/
structure APIRequest where
  httpMethod : String
  queryStringParameters : List (String × String)
  body : Except String CreateHealthLogRequest

/-- Go map lookup on the query parameters: absent keys read as the
empty string. -/
def qget (ps : List (String × String)) (k : String) : String :=
  (ps.lookup k).getD ""

/-- The headers set once at the top of HandleRequest and passed to
every response. -/
def corsHeaders : List (String × String) :=
  [("Content-Type", "application/json"),
   ("Access-Control-Allow-Origin", "*"),
   ("Access-Control-Allow-Headers", "Content-Type,Authorization"),
   ("Access-Control-Allow-Methods", "GET,POST,PUT,DELETE,OPTIONS")]

/-- handlers.errorResponse: the ErrorResponse envelope. -/
def errorResponse (statusCode : Nat) (error message : String)
    (headers : List (String × String)) : APIResponse :=
  ⟨statusCode, headers, RespBody.err error message⟩

/-- handlers.successResponse: the SuccessResponse envelope. -/
def successResponse (statusCode : Nat) (data : Option RespData)
    (message : String) (headers : List (String × String)) : APIResponse :=
  ⟨statusCode, headers, RespBody.success data message⟩

/-- handlers.handleCreateHealthLog: parse outcome, presence checks in
the order userId, type, value, then create with the server clock. -/
def handleCreateHealthLog (t : Table)
    (body : Except String CreateHealthLogRequest) (now : String)
    (headers : List (String × String)) : APIResponse × Table :=
  match body with
  | Except.error e =>
      (errorResponse 400 "Invalid request body" e headers, t)
  | Except.ok req =>
      if req.userId = "" then
        (errorResponse 400 "Missing required field" "userId is required" headers, t)
      else if req.type = "" then
        (errorResponse 400 "Missing required field" "type is required" headers, t)
      else if req.value = "" then
        (errorResponse 400 "Missing required field" "value is required" headers, t)
      else
        let healthLog : HealthLog := ⟨req.userId, now, req.type, req.value⟩
        (successResponse 201 (some (RespData.log healthLog))
          "Health log created successfully" headers,
         CreateHealthLog t healthLog)

/-- The timestamp branch of handlers.handleGetHealthLogs: point lookup,
with the not-found test comparing the error text against the string
"health log not found". -/
def pointLookupResponse (t : Table) (userID timestamp : String)
    (headers : List (String × String)) : APIResponse :=
  match GetHealthLog t userID timestamp with
  | Except.error e =>
      if e = "health log not found" then
        errorResponse 404 "Health log not found" "" headers
      else
        errorResponse 500 "Failed to get health log" e headers
  | Except.ok log => successResponse 200 (some (RespData.log log)) "" headers

/-- handlers.handleGetHealthLogs: require userId, then dispatch on the
presence of timestamp, then of type. -/
def handleGetHealthLogs (t : Table) (qp : List (String × String))
    (headers : List (String × String)) : APIResponse :=
  let userID := qget qp "userId"
  if userID = "" then
    errorResponse 400 "Missing required parameter" "userId is required" headers
  else
    let logType := qget qp "type"
    let timestamp := qget qp "timestamp"
    if timestamp ≠ "" then
      pointLookupResponse t userID timestamp headers
    else if logType ≠ "" then
      successResponse 200
        (some (RespData.logs (GetHealthLogsByUserIDAndType t userID logType)))
        "" headers
    else
      successResponse 200
        (some (RespData.logs (GetHealthLogsByUserID t userID))) "" headers

/-- handlers.handleDeleteHealthLog: require userId and timestamp, then
delete and report success unconditionally. -/
def handleDeleteHealthLog (t : Table) (qp : List (String × String))
    (headers : List (String × String)) : APIResponse × Table :=
  let userID := qget qp "userId"
  let timestamp := qget qp "timestamp"
  if userID = "" ∨ timestamp = "" then
    (errorResponse 400 "Missing required parameters"
      "userId and timestamp are required" headers, t)
  else
    (successResponse 200 none "Health log deleted successfully" headers,
     DeleteHealthLog t userID timestamp)

/-- handlers.HandleRequest: CORS headers, OPTIONS preflight, then
dispatch by HTTP method. -/
def HandleRequest (t : Table) (request : APIRequest) (now : String) :
    APIResponse × Table :=
  let headers := corsHeaders
  if request.httpMethod = "OPTIONS" then
    (⟨200, headers, RespBody.empty⟩, t)
  else if request.httpMethod = "POST" then
    handleCreateHealthLog t request.body now headers
  else if request.httpMethod = "GET" then
    (handleGetHealthLogs t request.queryStringParameters headers, t)
  else if request.httpMethod = "DELETE" then
    handleDeleteHealthLog t request.queryStringParameters headers
  else
    (errorResponse 405 "Method not allowed" "" headers, t)

/-- C1: at the failing input (a GET point lookup on an empty table with
userId u1 and timestamp 2024-01-01T00:00:00Z), the handler returns 500
with error text Failed to get health log and the store's message
log not found, not the 404 Health log not found the claim states: the
store reports a miss as the string log not found while the handler's
404 branch tests for the string health log not found, so that branch is
unreachable. -/
theorem c1_lookup_miss_returns_500 :
    (HandleRequest []
        ⟨"GET", [("userId", "u1"), ("timestamp", "2024-01-01T00:00:00Z")],
          Except.error ""⟩ "now").1
      = errorResponse 500 "Failed to get health log" "log not found" corsHeaders
    ∧ (HandleRequest []
        ⟨"GET", [("userId", "u1"), ("timestamp", "2024-01-01T00:00:00Z")],
          Except.error ""⟩ "now").1.statusCode ≠ 404 := by
  constructor <;> decide

/-- C2: a POST whose body unmarshals with non-empty userId, type and
value returns 201 echoing those three fields together with the
server-clock timestamp; the request shape has no timestamp field, so a
client-supplied timestamp cannot reach the stored record, whose
timestamp is exactly the server clock value. -/
theorem c2_create_valid (t : Table) (q : List (String × String))
    (req : CreateHealthLogRequest) (now : String)
    (hu : req.userId ≠ "") (ht : req.type ≠ "") (hv : req.value ≠ "") :
    HandleRequest t ⟨"POST", q, Except.ok req⟩ now
      = (successResponse 201
           (some (RespData.log ⟨req.userId, now, req.type, req.value⟩))
           "Health log created successfully" corsHeaders,
         CreateHealthLog t ⟨req.userId, now, req.type, req.value⟩) := by
  simp [HandleRequest, handleCreateHealthLog, hu, ht, hv]

/-- C2 witness: the concrete valid POST body u1, weight, 70kg at server
clock 2024-01-01T00:00:00Z. -/
theorem c2_create_valid_witness :
    HandleRequest [] ⟨"POST", [], Except.ok ⟨"u1", "weight", "70kg"⟩⟩
        "2024-01-01T00:00:00Z"
      = (successResponse 201
           (some (RespData.log ⟨"u1", "2024-01-01T00:00:00Z", "weight", "70kg"⟩))
           "Health log created successfully" corsHeaders,
         CreateHealthLog [] ⟨"u1", "2024-01-01T00:00:00Z", "weight", "70kg"⟩) :=
  c2_create_valid [] [] ⟨"u1", "weight", "70kg"⟩ "2024-01-01T00:00:00Z"
    (by decide) (by decide) (by decide)

/-- C3: a parsed POST body missing a required field is rejected with
400, error Missing required field, and a message naming the first
missing field in the order userId, type, value; the table is returned
unchanged, so no store write occurs. -/
theorem c3_missing_field (t : Table) (q : List (String × String))
    (req : CreateHealthLogRequest) (now : String) :
    (req.userId = "" →
      HandleRequest t ⟨"POST", q, Except.ok req⟩ now
        = (errorResponse 400 "Missing required field" "userId is required"
             corsHeaders, t))
  ∧ (req.userId ≠ "" → req.type = "" →
      HandleRequest t ⟨"POST", q, Except.ok req⟩ now
        = (errorResponse 400 "Missing required field" "type is required"
             corsHeaders, t))
  ∧ (req.userId ≠ "" → req.type ≠ "" → req.value = "" →
      HandleRequest t ⟨"POST", q, Except.ok req⟩ now
        = (errorResponse 400 "Missing required field" "value is required"
             corsHeaders, t)) := by
  refine ⟨fun h1 => ?_, fun h1 h2 => ?_, fun h1 h2 h3 => ?_⟩
  · simp [HandleRequest, handleCreateHealthLog, h1]
  · simp [HandleRequest, handleCreateHealthLog, h1, h2]
  · simp [HandleRequest, handleCreateHealthLog, h1, h2, h3]

/-- C3 witness: the concrete body with userId u1, type weight and an
empty value yields 400 with message value is required and leaves the
table unchanged. -/
theorem c3_missing_field_witness :
    HandleRequest [] ⟨"POST", [], Except.ok ⟨"u1", "weight", ""⟩⟩ "now"
      = (errorResponse 400 "Missing required field" "value is required"
           corsHeaders, []) :=
  (c3_missing_field [] [] ⟨"u1", "weight", ""⟩ "now").2.2
    (by decide) (by decide) (by decide)

/-- C10: a POST whose body fails to unmarshal into the create-request
shape returns 400 with error Invalid request body and the parse error
as the message, and the table is returned unchanged. -/
theorem c10_invalid_body (t : Table) (q : List (String × String))
    (e : String) (now : String) :
    HandleRequest t ⟨"POST", q, Except.error e⟩ now
      = (errorResponse 400 "Invalid request body" e corsHeaders, t) := by
  simp [HandleRequest, handleCreateHealthLog]

/-- C6: UpdateHealthLog and CreateHealthLog are the same operation on
the same log and table: both are the unconditional overwrite-by-key
put, after which the point lookup at the log's key finds exactly the
new log. -/
theorem c6_update_eq_create (t : Table) (log : HealthLog) :
    UpdateHealthLog t log = CreateHealthLog t log
  ∧ UpdateHealthLog t log = putItem t log
  ∧ getItem (UpdateHealthLog t log) log.userId log.timestamp = some log := by
  refine ⟨rfl, rfl, ?_⟩
  simp [UpdateHealthLog, putItem, getItem, keyMatches]

/-- C5: a DELETE returns 400 exactly when userId or timestamp is absent
or empty; with both present it returns 200 with message Health log
deleted successfully and the table after DeleteHealthLog, and deleting
a key that has no item leaves the table unchanged. -/
theorem c5_delete (t : Table) (qp : List (String × String))
    (b : Except String CreateHealthLogRequest) (now : String) :
    ((HandleRequest t ⟨"DELETE", qp, b⟩ now).1.statusCode = 400
      ↔ (qget qp "userId" = "" ∨ qget qp "timestamp" = ""))
  ∧ (qget qp "userId" ≠ "" → qget qp "timestamp" ≠ "" →
      HandleRequest t ⟨"DELETE", qp, b⟩ now
        = (successResponse 200 none "Health log deleted successfully"
             corsHeaders,
           DeleteHealthLog t (qget qp "userId") (qget qp "timestamp")))
  ∧ (getItem t (qget qp "userId") (qget qp "timestamp") = none →
      DeleteHealthLog t (qget qp "userId") (qget qp "timestamp") = t) := by
  refine ⟨?_, fun h1 h2 => ?_, fun hmiss => ?_⟩
  · by_cases h : qget qp "userId" = "" ∨ qget qp "timestamp" = "" <;>
      simp [HandleRequest, handleDeleteHealthLog, h, errorResponse,
        successResponse]
  · simp [HandleRequest, handleDeleteHealthLog, h1, h2]
  · have hall : ∀ x ∈ t,
        ¬ keyMatches (qget qp "userId") (qget qp "timestamp") x = true :=
      List.find?_eq_none.mp hmiss
    simpa [DeleteHealthLog, deleteItem, List.filter_eq_self] using hall

/-- C5 witness: the concrete DELETE with userId u1 and timestamp
2024-01-01T00:00:00Z on an empty table. -/
theorem c5_delete_witness :
    HandleRequest []
        ⟨"DELETE", [("userId", "u1"), ("timestamp", "2024-01-01T00:00:00Z")],
          Except.error ""⟩ "now"
      = (successResponse 200 none "Health log deleted successfully"
           corsHeaders,
         DeleteHealthLog []
           (qget [("userId", "u1"), ("timestamp", "2024-01-01T00:00:00Z")]
             "userId")
           (qget [("userId", "u1"), ("timestamp", "2024-01-01T00:00:00Z")]
             "timestamp")) :=
  (c5_delete [] [("userId", "u1"), ("timestamp", "2024-01-01T00:00:00Z")]
    (Except.error "") "now").2.1 (by decide) (by decide)

/-- The create handler echoes back the headers it receives. -/
theorem handleCreateHealthLog_headers (t : Table)
    (b : Except String CreateHealthLogRequest) (now : String)
    (hs : List (String × String)) :
    (handleCreateHealthLog t b now hs).1.headers = hs := by
  cases b with
  | error e => rfl
  | ok req =>
    by_cases h1 : req.userId = "" <;> by_cases h2 : req.type = "" <;>
      by_cases h3 : req.value = "" <;>
      simp [handleCreateHealthLog, h1, h2, h3, errorResponse, successResponse]

/-- The point-lookup branch echoes back the headers it receives. -/
theorem pointLookupResponse_headers (t : Table) (u ts : String)
    (hs : List (String × String)) :
    (pointLookupResponse t u ts hs).headers = hs := by
  unfold pointLookupResponse
  cases hg : GetHealthLog t u ts with
  | error e =>
    by_cases he : e = "health log not found" <;>
      simp [he, errorResponse]
  | ok log => rfl

/-- The GET handler echoes back the headers it receives. -/
theorem handleGetHealthLogs_headers (t : Table)
    (qp : List (String × String)) (hs : List (String × String)) :
    (handleGetHealthLogs t qp hs).headers = hs := by
  unfold handleGetHealthLogs
  by_cases h1 : qget qp "userId" = "" <;>
    by_cases h2 : qget qp "timestamp" = "" <;>
    by_cases h3 : qget qp "type" = "" <;>
    simp [h1, h2, h3, errorResponse, successResponse,
      pointLookupResponse_headers]

/-- The DELETE handler echoes back the headers it receives. -/
theorem handleDeleteHealthLog_headers (t : Table)
    (qp : List (String × String)) (hs : List (String × String)) :
    (handleDeleteHealthLog t qp hs).1.headers = hs := by
  unfold handleDeleteHealthLog
  by_cases h : qget qp "userId" = "" ∨ qget qp "timestamp" = "" <;>
    simp [h, errorResponse, successResponse]

/-- C9: whatever the method, parameters, body and table state, the
response carries exactly the headers fixed at the top of HandleRequest,
which include the permissive CORS origin together with the explicit
allowed-headers and allowed-methods entries. -/
theorem c9_cors_always (t : Table) (request : APIRequest) (now : String) :
    (HandleRequest t request now).1.headers = corsHeaders
  ∧ ("Access-Control-Allow-Origin", "*")
      ∈ (HandleRequest t request now).1.headers
  ∧ ("Access-Control-Allow-Headers", "Content-Type,Authorization")
      ∈ (HandleRequest t request now).1.headers
  ∧ ("Access-Control-Allow-Methods", "GET,POST,PUT,DELETE,OPTIONS")
      ∈ (HandleRequest t request now).1.headers := by
  have h : (HandleRequest t request now).1.headers = corsHeaders := by
    unfold HandleRequest
    by_cases h1 : request.httpMethod = "OPTIONS" <;>
      by_cases h2 : request.httpMethod = "POST" <;>
      by_cases h3 : request.httpMethod = "GET" <;>
      by_cases h4 : request.httpMethod = "DELETE" <;>
      simp [h1, h2, h3, h4, errorResponse, handleCreateHealthLog_headers,
        handleGetHealthLogs_headers, handleDeleteHealthLog_headers]
  refine ⟨h, ?_, ?_, ?_⟩ <;> rw [h] <;> simp [corsHeaders]

/-- The partition query is sorted by timestamp descending. -/
theorem dynQuery_sorted (t : Table) (u : String) :
    List.Pairwise (fun a b : HealthLog => b.timestamp ≤ a.timestamp)
      (dynQuery t u) := by
  have hs := @List.sorted_mergeSort HealthLog tsDescLe
    (fun a b c hab hbc => by
      simp only [tsDescLe, decide_eq_true_eq] at hab hbc ⊢
      exact le_trans hbc hab)
    (fun a b => by
      simp only [tsDescLe, Bool.or_eq_true, decide_eq_true_eq]
      exact le_total b.timestamp a.timestamp)
    (List.filter (fun l => l.userId == u) t)
  exact hs.imp (fun h => by simpa [tsDescLe] using h)

/-- C7: listing by user is a permutation of the table's items with that
partition key (so membership is exactly the per-user items), it is
ordered by timestamp descending, and a user with no items gets the
empty sequence, not an error. -/
theorem c7_list_by_user (t : Table) (u : String) :
    List.Perm (GetHealthLogsByUserID t u)
      (List.filter (fun l => l.userId == u) t)
  ∧ (∀ l, l ∈ GetHealthLogsByUserID t u ↔ (l ∈ t ∧ l.userId = u))
  ∧ List.Pairwise (fun a b : HealthLog => b.timestamp ≤ a.timestamp)
      (GetHealthLogsByUserID t u)
  ∧ ((∀ l ∈ t, l.userId ≠ u) → GetHealthLogsByUserID t u = []) := by
  refine ⟨List.mergeSort_perm _ _, ?_, dynQuery_sorted t u, ?_⟩
  · intro l
    simp [GetHealthLogsByUserID, dynQuery, List.mem_filter]
  · intro h
    have hnil : List.filter (fun l => l.userId == u) t = [] := by
      simp only [List.filter_eq_nil_iff, beq_iff_eq]
      exact h
    simp [GetHealthLogsByUserID, dynQuery, hnil]

/-- C7 witness: a user with no items in the empty table gets the empty
sequence. -/
theorem c7_list_by_user_witness : GetHealthLogsByUserID [] "u1" = [] :=
  (c7_list_by_user [] "u1").2.2.2 (by simp)

/-- C8: listing by user and type is exactly the per-user listing
post-filtered on the type attribute, hence a subsequence of it (the
descending order is preserved), its members are exactly the user's
items of that type, and a type matching none of the user's items gives
the empty sequence, not an error. -/
theorem c8_list_by_user_and_type (t : Table) (u ty : String) :
    GetHealthLogsByUserIDAndType t u ty
      = List.filter (fun l => l.type == ty) (GetHealthLogsByUserID t u)
  ∧ List.Sublist (GetHealthLogsByUserIDAndType t u ty)
      (GetHealthLogsByUserID t u)
  ∧ List.Pairwise (fun a b : HealthLog => b.timestamp ≤ a.timestamp)
      (GetHealthLogsByUserIDAndType t u ty)
  ∧ (∀ l, l ∈ GetHealthLogsByUserIDAndType t u ty
        ↔ (l ∈ t ∧ l.userId = u ∧ l.type = ty))
  ∧ ((∀ l ∈ t, l.userId = u → l.type ≠ ty) →
      GetHealthLogsByUserIDAndType t u ty = []) := by
  have hsub : List.Sublist (GetHealthLogsByUserIDAndType t u ty)
      (GetHealthLogsByUserID t u) := List.filter_sublist _
  have hmem : ∀ l, l ∈ GetHealthLogsByUserIDAndType t u ty
      ↔ (l ∈ t ∧ l.userId = u ∧ l.type = ty) := by
    intro l
    simp [GetHealthLogsByUserIDAndType, dynQueryFiltered, dynQuery,
      GetHealthLogsByUserID, List.mem_filter, and_assoc]
  refine ⟨rfl, hsub, ?_, hmem, ?_⟩
  · exact (dynQuery_sorted t u).sublist hsub
  · intro h
    rw [List.eq_nil_iff_forall_not_mem]
    intro l hl
    rcases (hmem l).mp hl with ⟨hlt, hu, hty⟩
    exact h l hlt hu hty

/-- C8 witness: on the empty table the filtered listing is the empty
sequence. -/
theorem c8_list_by_user_and_type_witness :
    GetHealthLogsByUserIDAndType [] "u1" "weight" = [] :=
  (c8_list_by_user_and_type [] "u1" "weight").2.2.2.2 (by simp)

/-- C4: GET dispatch — missing or empty userId gives 400; with userId
present, a non-empty timestamp selects the point lookup even when type
is also present; otherwise a non-empty type selects the type-filtered
listing with 200; otherwise the full per-user listing with 200; and
when the user has no items the listing branches return 200 with the
empty sequence rather than an error. -/
theorem c4_get_dispatch (t : Table) (qp : List (String × String))
    (b : Except String CreateHealthLogRequest) (now : String) :
    (qget qp "userId" = "" →
      HandleRequest t ⟨"GET", qp, b⟩ now
        = (errorResponse 400 "Missing required parameter"
             "userId is required" corsHeaders, t))
  ∧ (qget qp "userId" ≠ "" → qget qp "timestamp" ≠ "" →
      HandleRequest t ⟨"GET", qp, b⟩ now
        = (pointLookupResponse t (qget qp "userId") (qget qp "timestamp")
             corsHeaders, t))
  ∧ (qget qp "userId" ≠ "" → qget qp "timestamp" = "" →
      qget qp "type" ≠ "" →
      HandleRequest t ⟨"GET", qp, b⟩ now
        = (successResponse 200
             (some (RespData.logs
               (GetHealthLogsByUserIDAndType t (qget qp "userId")
                 (qget qp "type")))) "" corsHeaders, t))
  ∧ (qget qp "userId" ≠ "" → qget qp "timestamp" = "" →
      qget qp "type" = "" →
      HandleRequest t ⟨"GET", qp, b⟩ now
        = (successResponse 200
             (some (RespData.logs
               (GetHealthLogsByUserID t (qget qp "userId")))) ""
             corsHeaders, t))
  ∧ (qget qp "userId" ≠ "" → qget qp "timestamp" = "" →
      (∀ l ∈ t, l.userId ≠ qget qp "userId") →
      HandleRequest t ⟨"GET", qp, b⟩ now
        = (successResponse 200 (some (RespData.logs [])) "" corsHeaders,
           t)) := by
  refine ⟨fun h1 => ?_, fun h1 h2 => ?_, fun h1 h2 h3 => ?_,
    fun h1 h2 h3 => ?_, fun h1 h2 hnone => ?_⟩
  · simp [HandleRequest, handleGetHealthLogs, h1]
  · simp [HandleRequest, handleGetHealthLogs, h1, h2]
  · simp [HandleRequest, handleGetHealthLogs, h1, h2, h3]
  · simp [HandleRequest, handleGetHealthLogs, h1, h2, h3]
  · have hnil : List.filter (fun l => l.userId == qget qp "userId") t
        = [] := by
      simp only [List.filter_eq_nil_iff, beq_iff_eq]
      exact hnone
    by_cases h3 : qget qp "type" = "" <;>
      simp [HandleRequest, handleGetHealthLogs, h1, h2, h3,
        GetHealthLogsByUserID, GetHealthLogsByUserIDAndType,
        dynQueryFiltered, dynQuery, hnil]

/-- C4 witness: a GET with only userId u1 on the empty table returns
200 with the empty sequence. -/
theorem c4_get_dispatch_witness :
    HandleRequest [] ⟨"GET", [("userId", "u1")], Except.error ""⟩ "now"
      = (successResponse 200 (some (RespData.logs [])) "" corsHeaders,
         []) :=
  (c4_get_dispatch [] [("userId", "u1")] (Except.error "") "now").2.2.2.2
    (by decide) (by decide) (by simp)
